import Mathlib

/-!
Verification of the provider abstraction and completion-dispatch core of the
multi-model AI aggregation service (src/providers/).

The Python sources are shallowly embedded: each provider variant's message
translation, request-parameter mapping, response normalization, streaming
normalization and error handling is translated into an executable Lean
function; Python dicts are modelled as ordered association lists with
Python dict assignment/update semantics; vendor network outcomes are
modelled as an `Except` value (the vendor either returns a response object
or raises an exception); Python float parameters are modelled as rationals.
-/

set_option maxHeartbeats 1000000

namespace MultiModelAI

/-- Lower-case a string character by character, modelling Python str.lower
for the ASCII identifiers this code applies it to. -/
def lowerStr (s : String) : String := String.mk (s.data.map Char.toLower)

/-- Substring test, modelling the Python operator `pat in s`. -/
def strContains (s pat : String) : Bool := decide (pat.data <:+: s.data)

/-- Leading-substring test, modelling Python str.startswith. -/
def strStartsWith (s pat : String) : Bool := pat.data.isPrefixOf s.data

/-- A chat message of the universal request format:
a dict with a role key and a content key. -/
structure Message where
  role : String
  content : String
deriving DecidableEq, Repr

/-- A Google Gemini content turn; the single-element parts list
`[ {text: ...} ]` built by the source is modelled by its text. -/
structure GeminiTurn where
  role : String
  text : String
deriving DecidableEq, Repr

/-- A Cohere chat-history entry. -/
structure CohereMsg where
  role : String
  message : String
deriving DecidableEq, Repr

/-- Values stored in a request/response dict. -/
inductive Val where
  | null : Val
  | b : Bool → Val
  | s : String → Val
  | n : Nat → Val
  | q : ℚ → Val
  | strList : List String → Val
  | msgList : List Message → Val
  | gList : List GeminiTurn → Val
  | cList : List CohereMsg → Val
  | usage (prompt completion total : Option Nat) : Val
  | emptyMap : Val
deriving DecidableEq, Repr

/-- A Python dict, modelled as an ordered association list with no
duplicate keys maintained by `alistSet`. -/
abbrev Dict := List (String × Val)

/-- Python dict assignment `d[k] = v`: replace in place if the key is
present, otherwise append at the end (insertion order semantics). -/
def alistSet {β : Type} : List (String × β) → String → β → List (String × β)
  | [], k, v => [(k, v)]
  | p :: rest, k, v => if p.1 == k then (k, v) :: rest else p :: alistSet rest k v

/-- Python dict lookup `d.get(k)`. -/
def alistGet {β : Type} (d : List (String × β)) (k : String) : Option β :=
  (d.find? (fun p => p.1 == k)).map (fun p => p.2)

/-- Python `d.update(e)`: set every entry of `e` into `d`, in order. -/
def dictUpdate (d e : Dict) : Dict := e.foldl (fun acc p => alistSet acc p.1 p.2) d

theorem alistGet_set_self {β : Type} (d : List (String × β)) (k : String) (v : β) :
    alistGet (alistSet d k v) k = some v := by
  induction d with
  | nil => simp [alistSet, alistGet, List.find?]
  | cons p rest ih =>
      by_cases h : p.1 == k
      · simp [alistSet, alistGet, h, List.find?]
      · simp only [alistSet, h, if_false]
        simpa [alistGet, List.find?, h] using ih

theorem alistGet_set_other {β : Type} (d : List (String × β)) (k k' : String) (v : β)
    (h : k ≠ k') : alistGet (alistSet d k' v) k = alistGet d k := by
  induction d with
  | nil =>
      simp only [alistSet, alistGet, List.find?]
      have : (k' == k) = false := by
        simp only [beq_eq_false_iff_ne, ne_eq]
        exact fun hk => h hk.symm
      simp [this]
  | cons p rest ih =>
      by_cases hp : p.1 == k'
      · have hpk : (p.1 == k) = false := by
          simp only [beq_eq_false_iff_ne, ne_eq]
          intro hk
          exact h (by rw [← hk, eq_of_beq hp])
        have hk'k : (k' == k) = false := by
          simp only [beq_eq_false_iff_ne, ne_eq]
          exact fun hk => h hk.symm
        simp [alistSet, hp, alistGet, List.find?, hpk, hk'k]
      · simp only [alistSet, hp, if_false]
        by_cases hq : p.1 == k
        · simp [alistGet, List.find?, hq]
        · simpa [alistGet, List.find?, hq] using ih

theorem alistGet_update_mem (d e : Dict) (k : String) (v : Val)
    (hnd : (e.map Prod.fst).Nodup) (hmem : (k, v) ∈ e) :
    alistGet (dictUpdate d e) k = some v := by
  induction e generalizing d with
  | nil => cases hmem
  | cons p rest ih =>
      simp only [List.map_cons, List.nodup_cons] at hnd
      rcases List.mem_cons.mp hmem with h | h
      · subst h
        have hnot : ∀ w, (k, w) ∉ rest := by
          intro w hw
          exact hnd.1 (List.mem_map.mpr ⟨(k, w), hw, rfl⟩)
        clear hmem hnd ih
        -- after setting k, no later update touches key k
        have : ∀ d', alistGet d' k = some v →
            alistGet (dictUpdate d' rest) k = some v := by
          clear d
          induction rest with
          | nil => intro d' h'; simpa [dictUpdate] using h'
          | cons q rs ihr =>
              intro d' h'
              have hqk : k ≠ q.1 := by
                intro hk
                exact hnot q.2 (by rw [hk]; exact List.mem_cons_self q rs)
              have hstep : alistGet (alistSet d' q.1 q.2) k = some v := by
                rw [alistGet_set_other d' k q.1 q.2 hqk]; exact h'
              have hrs : ∀ w, (k, w) ∉ rs := fun w hw => hnot w (List.mem_cons_of_mem q hw)
              exact ihr hrs (alistSet d' q.1 q.2) hstep
        exact this (alistSet d k v) (alistGet_set_self d k v)
      · exact ih (alistSet d p.1 p.2) hnd.2 h

theorem alistGet_update_not_mem (d e : Dict) (k : String)
    (h : ∀ v, (k, v) ∉ e) : alistGet (dictUpdate d e) k = alistGet d k := by
  induction e generalizing d with
  | nil => simp [dictUpdate]
  | cons p rest ih =>
      have hpk : k ≠ p.1 := by
        intro hk
        exact h p.2 (by rw [hk]; exact List.mem_cons_self p rest)
      have hrest : ∀ v, (k, v) ∉ rest := fun v hv => h v (List.mem_cons_of_mem p hv)
      have := ih (alistSet d p.1 p.2) hrest
      simpa [dictUpdate, alistGet_set_other d k p.1 p.2 hpk] using this

/-!
Message translation (`_convert_messages_to_*_format` of each variant).
Each is a fold over the message list mirroring the Python for-loop: a
system message overwrites the system/preamble slot, user and assistant
messages are appended to the vendor turn list, other roles are ignored.
-/

/-- AnthropicProvider._convert_messages_to_anthropic_format. -/
def anthropicConvert (messages : List Message) : List Message × Option String :=
  messages.foldl
    (fun acc m =>
      if m.role == "system" then (acc.1, some m.content)
      else if m.role == "user" then (acc.1 ++ [⟨"user", m.content⟩], acc.2)
      else if m.role == "assistant" then (acc.1 ++ [⟨"assistant", m.content⟩], acc.2)
      else acc)
    ([], none)

/-- GoogleProvider._convert_messages_to_gemini_format. -/
def googleConvert (messages : List Message) : List GeminiTurn × Option String :=
  messages.foldl
    (fun acc m =>
      if m.role == "system" then (acc.1, some m.content)
      else if m.role == "user" then (acc.1 ++ [⟨"user", m.content⟩], acc.2)
      else if m.role == "assistant" then (acc.1 ++ [⟨"model", m.content⟩], acc.2)
      else acc)
    ([], none)

/-- CohereProvider._convert_messages_to_cohere_format. -/
def cohereConvert (messages : List Message) : List CohereMsg × Option String :=
  messages.foldl
    (fun acc m =>
      if m.role == "system" then (acc.1, some m.content)
      else if m.role == "user" then (acc.1 ++ [⟨"USER", m.content⟩], acc.2)
      else if m.role == "assistant" then (acc.1 ++ [⟨"CHATBOT", m.content⟩], acc.2)
      else acc)
    ([], none)

/-- The system-message step of GoogleProvider.generate_completion: when the
extracted system message is truthy and the first Gemini turn is a user turn,
the system content is prepended to that turn with the `[SYSTEM: ...]` marker;
in every other case the Gemini turns are left unchanged. -/
def googleApplySystem (gemini : List GeminiTurn) (sysm : Option String) : List GeminiTurn :=
  match sysm with
  | none => gemini
  | some s =>
      if s == "" then gemini
      else
        match gemini with
        | [] => []
        | g :: rest =>
            if g.role == "user" then
              ⟨g.role, "[SYSTEM: " ++ s ++ "]\n\n" ++ g.text⟩ :: rest
            else g :: rest

/-- The contents Google's generate_completion sends to the vendor. -/
def googleRequestContents (messages : List Message) : List GeminiTurn :=
  googleApplySystem (googleConvert messages).1 (googleConvert messages).2

/-!
Generic lemmas about the conversion folds: the system slot ends up holding
the last system message content, and the turn list is exactly the turn list
of the sequence with all system messages removed.
-/

theorem foldl_snd_no_system {τ : Type}
    (f : List τ × Option String → Message → List τ × Option String)
    (hns : ∀ acc m, m.role ≠ "system" → (f acc m).2 = acc.2)
    (l : List Message) (hl : ∀ m ∈ l, m.role ≠ "system") :
    ∀ acc, (l.foldl f acc).2 = acc.2 := by
  induction l with
  | nil => intro acc; rfl
  | cons m rest ih =>
      intro acc
      rw [List.foldl_cons, ih (fun x hx => hl x (List.mem_cons_of_mem m hx)),
        hns acc m (hl m (List.mem_cons_self m rest))]

theorem foldl_snd_last_system {τ : Type}
    (f : List τ × Option String → Message → List τ × Option String)
    (hsys : ∀ acc m, m.role = "system" → (f acc m).2 = some m.content)
    (hns : ∀ acc m, m.role ≠ "system" → (f acc m).2 = acc.2)
    (l₁ l₂ : List Message) (sysM : Message) (hs : sysM.role = "system")
    (hl₂ : ∀ m ∈ l₂, m.role ≠ "system") (acc : List τ × Option String) :
    ((l₁ ++ sysM :: l₂).foldl f acc).2 = some sysM.content := by
  rw [List.foldl_append, List.foldl_cons,
    foldl_snd_no_system f hns l₂ hl₂, hsys _ sysM hs]

theorem foldl_fst_filter_system {τ : Type}
    (f : List τ × Option String → Message → List τ × Option String)
    (hsysfst : ∀ acc m, m.role = "system" → (f acc m).1 = acc.1)
    (hfst : ∀ acc acc' m, acc.1 = acc'.1 → m.role ≠ "system" → (f acc m).1 = (f acc' m).1)
    (l : List Message) :
    ∀ acc acc', acc.1 = acc'.1 →
      (l.foldl f acc).1 = ((l.filter (fun m => !(m.role == "system"))).foldl f acc').1 := by
  induction l with
  | nil => intro acc acc' h; simpa using h
  | cons m rest ih =>
      intro acc acc' h
      by_cases hm : m.role = "system"
      · have hfilter : (m :: rest).filter (fun m => !(m.role == "system"))
            = rest.filter (fun m => !(m.role == "system")) := by
          simp [List.filter_cons, hm]
        rw [hfilter, List.foldl_cons]
        exact ih (f acc m) acc' (by rw [hsysfst acc m hm]; exact h)
      · have hfilter : (m :: rest).filter (fun m => !(m.role == "system"))
            = m :: rest.filter (fun m => !(m.role == "system")) := by
          simp [List.filter_cons, hm]
        rw [hfilter, List.foldl_cons, List.foldl_cons]
        exact ih (f acc m) (f acc' m) (hfst acc acc' m h hm)

theorem anthropicConvert_snd_last (l₁ l₂ : List Message) (sysM : Message)
    (hs : sysM.role = "system") (hl₂ : ∀ m ∈ l₂, m.role ≠ "system") :
    (anthropicConvert (l₁ ++ sysM :: l₂)).2 = some sysM.content := by
  refine foldl_snd_last_system _ ?_ ?_ l₁ l₂ sysM hs hl₂ ([], none)
  · intro acc m hm; simp [hm]
  · intro acc m hm; simp only [beq_iff_eq, hm, if_false]; split_ifs <;> rfl

theorem anthropicConvert_fst_filter (ms : List Message) :
    (anthropicConvert ms).1
      = (anthropicConvert (ms.filter (fun m => !(m.role == "system")))).1 := by
  refine foldl_fst_filter_system _ ?_ ?_ ms ([], none) ([], none) rfl
  · intro acc m hm; simp [hm]
  · intro acc acc' m h hm
    simp only [beq_iff_eq, hm, if_false]
    split_ifs <;> simp [h]

theorem googleConvert_snd_last (l₁ l₂ : List Message) (sysM : Message)
    (hs : sysM.role = "system") (hl₂ : ∀ m ∈ l₂, m.role ≠ "system") :
    (googleConvert (l₁ ++ sysM :: l₂)).2 = some sysM.content := by
  refine foldl_snd_last_system _ ?_ ?_ l₁ l₂ sysM hs hl₂ ([], none)
  · intro acc m hm; simp [hm]
  · intro acc m hm; simp only [beq_iff_eq, hm, if_false]; split_ifs <;> rfl

theorem googleConvert_fst_filter (ms : List Message) :
    (googleConvert ms).1
      = (googleConvert (ms.filter (fun m => !(m.role == "system")))).1 := by
  refine foldl_fst_filter_system _ ?_ ?_ ms ([], none) ([], none) rfl
  · intro acc m hm; simp [hm]
  · intro acc acc' m h hm
    simp only [beq_iff_eq, hm, if_false]
    split_ifs <;> simp [h]

theorem cohereConvert_snd_last (l₁ l₂ : List Message) (sysM : Message)
    (hs : sysM.role = "system") (hl₂ : ∀ m ∈ l₂, m.role ≠ "system") :
    (cohereConvert (l₁ ++ sysM :: l₂)).2 = some sysM.content := by
  refine foldl_snd_last_system _ ?_ ?_ l₁ l₂ sysM hs hl₂ ([], none)
  · intro acc m hm; simp [hm]
  · intro acc m hm; simp only [beq_iff_eq, hm, if_false]; split_ifs <;> rfl

theorem cohereConvert_fst_filter (ms : List Message) :
    (cohereConvert ms).1
      = (cohereConvert (ms.filter (fun m => !(m.role == "system")))).1 := by
  refine foldl_fst_filter_system _ ?_ ?_ ms ([], none) ([], none) rfl
  · intro acc m hm; simp [hm]
  · intro acc acc' m h hm
    simp only [beq_iff_eq, hm, if_false]
    split_ifs <;> simp [h]

/-!
Exceptions and error handling. A raised Python exception is modelled by
the name of its class and its message (`str(e)`); `isinstance` checks
against the concrete vendor SDK exception classes are modelled by
comparing the class name.
-/

/-- A Python exception: its class name and its `str(e)` message. -/
structure PyExc where
  ename : String
  msg : String
deriving DecidableEq, Repr

/-- BaseProvider.handle_provider_error: the standardized error response
dictionary, with the concrete class name of the provider. -/
def baseHandleProviderError (className : String) (e : PyExc) : Dict :=
  [("error", .b true), ("error_type", .s e.ename), ("message", .s e.msg),
   ("provider", .s className)]

/-- OpenAIProvider.handle_provider_error. -/
def openaiHandleError (e : PyExc) : Dict :=
  let d : Dict := [("error", .b true), ("error_type", .s e.ename),
    ("message", .s e.msg), ("provider", .s "openai")]
  if e.ename == "RateLimitError" then alistSet d "retry_after" (.n 60) else d

/-- AnthropicProvider.handle_provider_error. -/
def anthropicHandleError (e : PyExc) : Dict :=
  let d : Dict := [("error", .b true), ("error_type", .s e.ename),
    ("message", .s e.msg), ("provider", .s "anthropic")]
  if e.ename == "RateLimitError" then alistSet d "retry_after" (.n 60) else d

/-- GoogleProvider.handle_provider_error. -/
def googleHandleError (e : PyExc) : Dict :=
  let d : Dict := [("error", .b true), ("error_type", .s e.ename),
    ("message", .s e.msg), ("provider", .s "google")]
  if e.ename == "ResourceExhausted" then alistSet d "retry_after" (.n 60) else d

/-- CohereProvider.handle_provider_error. -/
def cohereHandleError (e : PyExc) : Dict :=
  let d : Dict := [("error", .b true), ("error_type", .s e.ename),
    ("message", .s e.msg), ("provider", .s "cohere")]
  if e.ename == "CohereAPIError" && strContains (lowerStr e.msg) "rate" then
    alistSet d "retry_after" (.n 60)
  else d

/-!
Request-parameter mapping of each variant's generate_completion: the params
dict built before the vendor call, in source order, with `additional_params`
merged last (`params.update(additional_params)` guarded by Python
truthiness of the dict).
-/

/-- Embed an optional string the way Python puts it in a dict
(None becomes null). -/
def optStr : Option String → Val
  | some s => .s s
  | none => .null

/-- One `if x is not None: params[k] = x` step of the parameter mapping. -/
def setIfSome (d : Dict) (k : String) (o : Option Val) : Dict :=
  match o with
  | some v => alistSet d k v
  | none => d

/-- The Python truthiness guard `if system_message:` used by the Anthropic
variant before writing the system slot: None and the empty string are
falsy. -/
def truthyStr : Option String → Option Val
  | some s => if s == "" then none else some (.s s)
  | none => none

theorem alistGet_setIfSome_other (d : Dict) (k k' : String) (o : Option Val)
    (h : k ≠ k') : alistGet (setIfSome d k' o) k = alistGet d k := by
  cases o with
  | none => rfl
  | some v => exact alistGet_set_other d k k' v h

theorem setIfSome_none (d : Dict) (k : String) : setIfSome d k none = d := rfl

theorem alistGet_nil {β : Type} (k : String) :
    alistGet ([] : List (String × β)) k = none := rfl

theorem setIfSome_some (d : Dict) (k : String) (v : Val) :
    setIfSome d k (some v) = alistSet d k v := rfl

/-- Embed an optional number the way Python puts it in a dict. -/
def optNat : Option Nat → Val
  | some v => .n v
  | none => .null

/-- The params dict of OpenAIProvider.generate_completion. -/
def openaiParams (model : String) (messages : List Message) (maxTokens : Option Nat)
    (temperature : ℚ) (topP : Option ℚ) (stopSequences : Option (List String))
    (presencePenalty frequencyPenalty : Option ℚ) (additionalParams : Dict) : Dict :=
  let params : Dict := [("model", .s model), ("messages", .msgList messages),
    ("temperature", .q temperature)]
  let params := setIfSome params "max_tokens" (maxTokens.map Val.n)
  let params := setIfSome params "top_p" (topP.map Val.q)
  let params := setIfSome params "stop" (stopSequences.map Val.strList)
  let params := setIfSome params "presence_penalty" (presencePenalty.map Val.q)
  let params := setIfSome params "frequency_penalty" (frequencyPenalty.map Val.q)
  if additionalParams.isEmpty then params else dictUpdate params additionalParams

/-- The params dict of AnthropicProvider.generate_completion.  The system
slot is only written when the extracted system message is truthy. -/
def anthropicParams (model : String) (messages : List Message) (maxTokens : Option Nat)
    (temperature : ℚ) (topP : Option ℚ) (stopSequences : Option (List String))
    (additionalParams : Dict) : Dict :=
  let conv := anthropicConvert messages
  let params : Dict := [("model", .s model), ("messages", .msgList conv.1),
    ("temperature", .q temperature)]
  let params := setIfSome params "system" (truthyStr conv.2)
  let params := setIfSome params "max_tokens" (maxTokens.map Val.n)
  let params := setIfSome params "top_p" (topP.map Val.q)
  let params := setIfSome params "stop_sequences" (stopSequences.map Val.strList)
  if additionalParams.isEmpty then params else dictUpdate params additionalParams

/-- The params dict of CohereProvider.generate_completion: the last
converted message is the message field, the rest are chat history, and the
preamble is written whenever the extracted value is not None. -/
def cohereParams (model : String) (messages : List Message) (maxTokens : Option Nat)
    (temperature : ℚ) (topP : Option ℚ) (stopSequences : Option (List String))
    (additionalParams : Dict) : Dict :=
  let conv := cohereConvert messages
  let lastMsg := match conv.1.getLast? with
    | some c => c.message | none => ""
  let history := if conv.1.length > 1 then conv.1.dropLast else []
  let params : Dict := [("model", .s model), ("message", .s lastMsg),
    ("chat_history", .cList history), ("temperature", .q temperature)]
  let params := setIfSome params "preamble" (conv.2.map Val.s)
  let params := setIfSome params "max_tokens" (maxTokens.map Val.n)
  let params := setIfSome params "p" (topP.map Val.q)
  let params := setIfSome params "stop_sequences" (stopSequences.map Val.strList)
  if additionalParams.isEmpty then params else dictUpdate params additionalParams

/-- The generation_config dict of GoogleProvider.generate_completion.
The source receives additional_params but never reads it, so the built
configuration does not depend on it. -/
def googleGenConfig (maxTokens : Option Nat) (temperature : ℚ) (topP : Option ℚ)
    (stopSequences : Option (List String)) (additionalParams : Dict) : Dict :=
  let _ := additionalParams
  let config : Dict := [("temperature", .q temperature)]
  let config := setIfSome config "max_output_tokens" (maxTokens.map Val.n)
  let config := setIfSome config "top_p" (topP.map Val.q)
  let config := setIfSome config "stop_sequences" (stopSequences.map Val.strList)
  config

/-!
Vendor responses and response normalization.  Each generate_completion is
modelled as a function of the vendor call outcome: the vendor either
returns a response object or raises an exception.  The whole body sits in
a try block whose two except arms both return handle_provider_error, so
an exceptional outcome always normalizes to the error dict; an exception
raised while normalizing (indexing an empty choices list) is modelled
explicitly since the same except arms catch it.
-/

/-- An OpenAI chat completion choice message. -/
structure OAIChoiceMsg where
  content : Option String
  role : String
deriving DecidableEq, Repr

/-- An OpenAI chat completion choice. -/
structure OAIChoice where
  message : OAIChoiceMsg
  finish_reason : Option String
deriving DecidableEq, Repr

/-- OpenAI token usage. -/
structure OAIUsage where
  prompt_tokens : Nat
  completion_tokens : Nat
  total_tokens : Nat
deriving DecidableEq, Repr

/-- An OpenAI chat completion response. -/
structure OAIResponse where
  id : String
  model : String
  created : Nat
  choices : List OAIChoice
  usage : OAIUsage
deriving DecidableEq, Repr

/-- OpenAIProvider.generate_completion, as a function of the vendor
outcome.  `response.choices[0]` on an empty choices list raises an
IndexError that the generic except arm converts to the error dict. -/
def openaiGenerateCompletion (outcome : Except PyExc OAIResponse) : Dict :=
  match outcome with
  | .error e => openaiHandleError e
  | .ok r =>
      match r.choices with
      | [] => openaiHandleError ⟨"IndexError", "list index out of range"⟩
      | c :: _ =>
          [("id", .s r.id), ("model", .s r.model), ("created", .n r.created),
           ("provider", .s "openai"),
           ("content", optStr c.message.content),
           ("role", .s c.message.role),
           ("finish_reason", optStr c.finish_reason),
           ("usage", .usage (some r.usage.prompt_tokens)
             (some r.usage.completion_tokens) (some r.usage.total_tokens))]

/-- An Anthropic content block. -/
structure AnthBlock where
  text : String
deriving DecidableEq, Repr

/-- Anthropic token usage. -/
structure AnthUsage where
  input_tokens : Nat
  output_tokens : Nat
deriving DecidableEq, Repr

/-- An Anthropic messages response. -/
structure AnthResponse where
  id : String
  model : String
  content : List AnthBlock
  stop_reason : Option String
  usage : AnthUsage
deriving DecidableEq, Repr

/-- AnthropicProvider.generate_completion, as a function of the vendor
outcome.  `response.content[0]` on an empty content list raises an
IndexError that the generic except arm converts to the error dict. -/
def anthropicGenerateCompletion (outcome : Except PyExc AnthResponse) : Dict :=
  match outcome with
  | .error e => anthropicHandleError e
  | .ok r =>
      match r.content with
      | [] => anthropicHandleError ⟨"IndexError", "list index out of range"⟩
      | blk :: _ =>
          [("id", .s r.id), ("model", .s r.model), ("created", .null),
           ("provider", .s "anthropic"),
           ("content", .s blk.text),
           ("role", .s "assistant"),
           ("finish_reason", optStr r.stop_reason),
           ("usage", .usage (some r.usage.input_tokens)
             (some r.usage.output_tokens)
             (some (r.usage.input_tokens + r.usage.output_tokens)))]

/-- Google usage metadata, each counter read with a None default. -/
structure GUsage where
  prompt_token_count : Option Nat
  candidates_token_count : Option Nat
  total_token_count : Option Nat
deriving DecidableEq, Repr

/-- A Google generate_content response. -/
structure GResponse where
  text : String
  usage_metadata : Option GUsage
deriving DecidableEq, Repr

/-- GoogleProvider.generate_completion, as a function of the request model
and the vendor outcome. -/
def googleGenerateCompletion (model : String) (outcome : Except PyExc GResponse) : Dict :=
  match outcome with
  | .error e => googleHandleError e
  | .ok r =>
      let usageVal := match r.usage_metadata with
        | none => .usage none none none
        | some u => Val.usage u.prompt_token_count u.candidates_token_count
            u.total_token_count
      [("id", .null), ("model", .s model), ("created", .null),
       ("provider", .s "google"),
       ("content", .s r.text),
       ("role", .s "assistant"),
       ("finish_reason", .null),
       ("usage", usageVal)]

/-- Cohere token counts, each read with a None default. -/
structure CohTokens where
  prompt_tokens : Option Nat
  response_tokens : Option Nat
  total_tokens : Option Nat
deriving DecidableEq, Repr

/-- A Cohere chat response; token_count is None when absent or falsy. -/
structure CohResponse where
  generation_id : Option String
  text : String
  token_count : Option CohTokens
deriving DecidableEq, Repr

/-- CohereProvider.generate_completion, as a function of the request model
and the vendor outcome. -/
def cohereGenerateCompletion (model : String) (outcome : Except PyExc CohResponse) : Dict :=
  match outcome with
  | .error e => cohereHandleError e
  | .ok r =>
      let usageVal := match r.token_count with
        | none => Val.emptyMap
        | some t => Val.usage t.prompt_tokens t.response_tokens t.total_tokens
      [("id", optStr r.generation_id), ("model", .s model), ("created", .null),
       ("provider", .s "cohere"),
       ("content", .s r.text),
       ("role", .s "assistant"),
       ("finish_reason", .null),
       ("usage", usageVal)]

/-!
Streaming normalization.  A vendor stream is modelled as the finite list
of events the vendor delivers; each generate_completion_stream is the list
of chunk dicts the async generator yields for those events.  When the
vendor call itself raises, the except arms yield the single error dict.
-/

/-- An OpenAI stream delta. -/
structure OAIDelta where
  content : Option String
  role : Option String
deriving DecidableEq, Repr

/-- An OpenAI stream chunk choice. -/
structure OAIStreamChoice where
  delta : OAIDelta
  finish_reason : Option String
deriving DecidableEq, Repr

/-- An OpenAI stream chunk event. -/
structure OAIChunk where
  id : String
  model : String
  created : Nat
  choices : List OAIStreamChoice
deriving DecidableEq, Repr

/-- The chunks OpenAIProvider.generate_completion_stream yields on a
successful stream: one dict per event with a non-empty choices list; no
chunk ever carries an is_final key. -/
def openaiStreamChunks (events : List OAIChunk) : List Dict :=
  events.filterMap fun c =>
    match c.choices with
    | [] => none
    | ch :: _ =>
        some [("id", .s c.id), ("model", .s c.model), ("created", .n c.created),
          ("provider", .s "openai"),
          ("content", .s (ch.delta.content.getD "")),
          ("role", optStr ch.delta.role),
          ("finish_reason", optStr ch.finish_reason),
          ("is_chunk", .b true)]

/-- An Anthropic stream event, by its type tag. -/
inductive AnthEvent where
  | contentBlockDelta (text : String) : AnthEvent
  | messageStop (id : String) (stop_reason : Option String) : AnthEvent
  | otherEvent : AnthEvent
deriving DecidableEq, Repr

/-- The chunk AnthropicProvider.generate_completion_stream yields for one
event (events of other types yield nothing). -/
def anthChunkOf (model : String) : AnthEvent → Option Dict
  | .contentBlockDelta t =>
      some [("id", .null), ("model", .s model), ("created", .null),
        ("provider", .s "anthropic"), ("content", .s t),
        ("role", .s "assistant"), ("finish_reason", .null),
        ("is_chunk", .b true)]
  | .messageStop id r =>
      some [("id", .s id), ("model", .s model), ("created", .null),
        ("provider", .s "anthropic"), ("content", .s ""),
        ("role", .s "assistant"), ("finish_reason", optStr r),
        ("is_chunk", .b true), ("is_final", .b true)]
  | .otherEvent => none

/-- The chunks AnthropicProvider.generate_completion_stream yields on a
successful stream. -/
def anthropicStreamChunks (model : String) (events : List AnthEvent) : List Dict :=
  events.filterMap (anthChunkOf model)

/-- A Google stream item: either it has no text attribute, or it has one
holding an optional string. -/
inductive GItem where
  | noText : GItem
  | withText (t : Option String) : GItem
deriving DecidableEq, Repr

/-- The text the Google stream loop reads from an item
(`item.text or ""`). -/
def gItemText : GItem → Option String
  | .noText => none
  | .withText t => some (t.getD "")

/-- A non-final Google stream chunk dict. -/
def googleTextChunk (model chunkText : String) : Dict :=
  [("id", .null), ("model", .s model), ("created", .null),
   ("provider", .s "google"), ("content", .s chunkText),
   ("role", .s "assistant"), ("finish_reason", .null), ("is_chunk", .b true)]

/-- The terminal Google stream chunk dict, carrying the accumulated text. -/
def googleFinalChunk (model fullText : String) : Dict :=
  [("id", .null), ("model", .s model), ("created", .null),
   ("provider", .s "google"), ("content", .s ""),
   ("role", .s "assistant"), ("finish_reason", .s "stop"),
   ("is_chunk", .b true), ("is_final", .b true), ("full_text", .s fullText)]

/-- The chunks GoogleProvider.generate_completion_stream yields on a
successful stream: one text chunk per item carrying text, then exactly one
final chunk with the accumulated text. -/
def googleStreamChunks (model : String) (items : List GItem) : List Dict :=
  (items.filterMap fun i => (gItemText i).map (googleTextChunk model)) ++
    [googleFinalChunk model (String.join (items.filterMap gItemText))]

/-- A Cohere stream event. -/
structure CohEvent where
  generation_id : Option String
  text : Option String
  is_finished : Bool
  token_count : Option CohTokens
deriving DecidableEq, Repr

/-- A non-final Cohere stream chunk dict. -/
def cohereTextChunk (model : String) (gid : Option String) (chunkText : String) : Dict :=
  [("id", optStr gid), ("model", .s model), ("created", .null),
   ("provider", .s "cohere"), ("content", .s chunkText),
   ("role", .s "assistant"), ("finish_reason", .null), ("is_chunk", .b true)]

/-- The terminal Cohere stream chunk dict. -/
def cohereFinalChunk (model : String) (gid : Option String) (fullText : String)
    (tc : Option CohTokens) : Dict :=
  let usageVal := match tc with
    | none => Val.emptyMap
    | some t => Val.usage t.prompt_tokens t.response_tokens t.total_tokens
  [("id", optStr gid), ("model", .s model), ("created", .null),
   ("provider", .s "cohere"), ("content", .s ""),
   ("role", .s "assistant"), ("finish_reason", .s "stop"),
   ("is_chunk", .b true), ("is_final", .b true), ("full_text", .s fullText),
   ("usage", usageVal)]

/-- The loop body of CohereProvider.generate_completion_stream, threading
the captured generation id and accumulated text through the events. -/
def cohereStreamGo (model : String) : Option String → String → List CohEvent → List Dict
  | _, _, [] => []
  | gid, acc, e :: rest =>
      let gid2 := match gid with
        | none => e.generation_id
        | some g => some g
      match e.text with
      | some t =>
          cohereTextChunk model gid2 t ::
            ((if e.is_finished then [cohereFinalChunk model gid2 (acc ++ t) e.token_count]
              else []) ++ cohereStreamGo model gid2 (acc ++ t) rest)
      | none =>
          (if e.is_finished then [cohereFinalChunk model gid2 acc e.token_count]
            else []) ++ cohereStreamGo model gid2 acc rest

/-- The chunks CohereProvider.generate_completion_stream yields on a
successful stream. -/
def cohereStreamChunks (model : String) (events : List CohEvent) : List Dict :=
  cohereStreamGo model none "" events

/-- OpenAIProvider.generate_completion_stream as a function of the vendor
outcome: on a raised vendor exception the except arms yield the single
error dict. -/
def openaiStreamRun (outcome : Except PyExc (List OAIChunk)) : List Dict :=
  match outcome with
  | .error e => [openaiHandleError e]
  | .ok events => openaiStreamChunks events

/-- AnthropicProvider.generate_completion_stream as a function of the
vendor outcome. -/
def anthropicStreamRun (model : String) (outcome : Except PyExc (List AnthEvent)) :
    List Dict :=
  match outcome with
  | .error e => [anthropicHandleError e]
  | .ok events => anthropicStreamChunks model events

/-- GoogleProvider.generate_completion_stream as a function of the vendor
outcome. -/
def googleStreamRun (model : String) (outcome : Except PyExc (List GItem)) :
    List Dict :=
  match outcome with
  | .error e => [googleHandleError e]
  | .ok items => googleStreamChunks model items

/-- CohereProvider.generate_completion_stream as a function of the vendor
outcome. -/
def cohereStreamRun (model : String) (outcome : Except PyExc (List CohEvent)) :
    List Dict :=
  match outcome with
  | .error e => [cohereHandleError e]
  | .ok events => cohereStreamChunks model events

/-!
Provider registry and factory (src/providers/__init__.py and factory.py).
The factory cache is a per-name association list of per-key buckets; the
per-name asyncio locks are modelled by the set of names a lock has been
created for.  factoryGetProvider follows ProviderFactory.get_provider on
its single-threaded path.
-/

/-- The keys of PROVIDER_REGISTRY, in declaration order. -/
def providerRegistryNames : List String := ["openai", "anthropic", "google", "cohere"]

/-- A constructed provider variant instance, identified by its registry
name and construction arguments. -/
structure ProviderInstance where
  provider_name : String
  api_key : String
  organization_id : Option String
deriving DecidableEq, Repr

/-- The module-level get_provider of src/providers/__init__.py: look the
lowered name up in the registry and construct, or raise ValueError. -/
def moduleGetProvider (provider_name api_key : String)
    (organization_id : Option String) : Except String ProviderInstance :=
  if providerRegistryNames.contains (lowerStr provider_name) then
    .ok ⟨lowerStr provider_name, api_key, organization_id⟩
  else
    .error ("Provider " ++ provider_name ++ " is not supported. Available providers: " ++
      String.intercalate ", " providerRegistryNames)

/-- ProviderFactory state: the provider cache (name to per-key bucket) and
the set of provider names a lock exists for. -/
structure FactoryState where
  providers : List (String × List (String × ProviderInstance))
  locks : List String
deriving DecidableEq, Repr

/-- The cache key f"{provider_name}:{api_key}:{organization_id or ''}". -/
def providerCacheKey (provider_name api_key : String)
    (organization_id : Option String) : String :=
  provider_name ++ ":" ++ api_key ++ ":" ++ organization_id.getD ""

/-- ProviderFactory.get_provider on its single-threaded path: ensure the
lock and the per-name bucket exist, then return the cached instance or
construct and store a new one; an unrecognized name raises out of the
construction call, after the bucket was already ensured. -/
def factoryGetProvider (st : FactoryState) (provider_name api_key : String)
    (organization_id : Option String) : Except String ProviderInstance × FactoryState :=
  let provider_key := providerCacheKey provider_name api_key organization_id
  let locks := if st.locks.contains provider_name then st.locks
    else st.locks ++ [provider_name]
  let providers := match alistGet st.providers provider_name with
    | some _ => st.providers
    | none => alistSet st.providers provider_name []
  let bucket := (alistGet providers provider_name).getD []
  match alistGet bucket provider_key with
  | some inst => (.ok inst, ⟨providers, locks⟩)
  | none =>
      match moduleGetProvider provider_name api_key organization_id with
      | .error e => (.error e, ⟨providers, locks⟩)
      | .ok inst =>
          (.ok inst, ⟨alistSet providers provider_name
            (alistSet bucket provider_key inst), locks⟩)

/-- ProviderFactory.get_provider_for_model: classify a bare model id by
the prefix and substring heuristics of the source, in source order, or
raise ValueError when nothing matches. -/
def getProviderForModel (model_id : String) : Except String String :=
  let m := lowerStr model_id
  if strStartsWith m "gpt" || strStartsWith m "text-" || strStartsWith m "davinci" ||
      strContains m "openai" then .ok "openai"
  else if strContains m "claude" || strContains m "anthropic" then .ok "anthropic"
  else if strContains m "gemini" || strContains m "palm" || strContains m "google" then
    .ok "google"
  else if strContains m "command" || strContains m "cohere" then .ok "cohere"
  else .error ("Cannot determine provider for model: " ++ m)

/-!
Retry wrapper (ProviderFactory.run_with_rate_limit_handling).  The
coroutine is modelled by the outcome of each attempt.  The jitter line of
the source reads `asyncio.Random().random()`, and the asyncio module has
no Random attribute, so on every retry path that line raises an
AttributeError before `asyncio.sleep` is reached.
-/

/-- The rate-limit classification heuristic of
run_with_rate_limit_handling.  The message is lowered before the
substring tests; the error type name is matched case-sensitively against
the literal "rateLimitError" exactly as written in the source. -/
def isRateLimit (etype msg : String) : Bool :=
  let m := lowerStr msg
  strContains m "rate" || strContains m "limit" || strContains m "capacity" ||
    strContains m "429" || strContains m "too many" || strContains etype "rateLimitError"

/-- The pre-jitter backoff delay of attempt `retries`:
`min(base_delay * (2 ** retries), max_delay)`. -/
def backoffDelay (base maxd : ℚ) (retries : ℕ) : ℚ :=
  min (base * 2 ^ retries) maxd

/-- The AttributeError raised by the jitter line `asyncio.Random()`:
the asyncio module has no Random attribute (quoting of the original
Python message omitted). -/
def asyncioRandomError : PyExc :=
  ⟨"AttributeError", "module asyncio has no attribute Random"⟩

/-- The retry loop of run_with_rate_limit_handling, returning the final
outcome together with the list of delays actually slept.  `retries` is
the loop counter; `budget` is the number of retries still allowed, that
is `max_retries - retries`, so the guard `retries >= max_retries` of the
source corresponds to an exhausted budget.  On a rate-limit-classified
failure with budget remaining, the handler computes the backoff delay
and the jitter amount, and then the jitter line raises the
AttributeError before `asyncio.sleep` and before the retries increment:
nothing is slept, the loop body never runs again, and the AttributeError
propagates in place of the original failure. -/
def runWithRateLimitGo {α : Type} (outcomes : ℕ → Except PyExc α)
    (base maxd : ℚ) : (retries budget : ℕ) → Except PyExc α × List ℚ
  | retries, budget =>
      match outcomes retries with
      | .ok a => (.ok a, [])
      | .error e =>
          if isRateLimit e.ename e.msg = false then (.error e, [])
          else
            match budget with
            | 0 => (.error e, [])
            | _ + 1 =>
                let _ := backoffDelay base maxd retries
                (.error asyncioRandomError, [])

/-- ProviderFactory.run_with_rate_limit_handling: the loop started with a
zero retries counter and the full retry budget. -/
def runWithRateLimit {α : Type} (outcomes : ℕ → Except PyExc α)
    (maxRetries : ℕ) (base maxd : ℚ) : Except PyExc α × List ℚ :=
  runWithRateLimitGo outcomes base maxd 0 maxRetries

/-!
Stream-termination predicate and chunk-shape facts used to settle the
terminal-chunk claims.
-/

/-- A chunk dict is terminal when its is_final entry is present and true. -/
def isFinalChunk (c : Dict) : Bool := alistGet c "is_final" == some (Val.b true)

/-- Whether the last chunk of a stream is terminal. -/
def lastIsFinal (cs : List Dict) : Bool :=
  match cs.getLast? with
  | some c => isFinalChunk c
  | none => false

/-- The terminal-chunk invariant of the spec: exactly one terminal chunk,
and it is the last chunk emitted (hence every earlier chunk is
non-terminal). -/
def streamTerminatesOnce (cs : List Dict) : Prop :=
  cs.countP (fun c => isFinalChunk c) = 1 ∧ lastIsFinal cs = true

instance (cs : List Dict) : Decidable (streamTerminatesOnce cs) := by
  unfold streamTerminatesOnce
  infer_instance

theorem isFinal_anthDelta (model t : String) :
    isFinalChunk [("id", .null), ("model", .s model), ("created", .null),
      ("provider", .s "anthropic"), ("content", .s t),
      ("role", .s "assistant"), ("finish_reason", .null),
      ("is_chunk", .b true)] = false := rfl

theorem isFinal_cohereTextChunk (model : String) (gid : Option String) (t : String) :
    isFinalChunk (cohereTextChunk model gid t) = false := by
  cases gid <;> rfl

theorem isFinal_cohereFinalChunk (model : String) (gid : Option String) (ft : String)
    (tc : Option CohTokens) : isFinalChunk (cohereFinalChunk model gid ft tc) = true := by
  cases gid <;> cases tc <;> rfl

theorem isFinal_googleTextChunk (model t : String) :
    isFinalChunk (googleTextChunk model t) = false := rfl

theorem isFinal_googleFinalChunk (model ft : String) :
    isFinalChunk (googleFinalChunk model ft) = true := rfl

theorem streamTerminatesOnce_append (xs : List Dict) (c : Dict)
    (hc : isFinalChunk c = true) (hxs : ∀ x ∈ xs, isFinalChunk x = false) :
    streamTerminatesOnce (xs ++ [c]) := by
  constructor
  · rw [List.countP_append]
    have h0 : xs.countP (fun x => isFinalChunk x) = 0 := by
      rw [List.countP_eq_zero]
      intro a ha
      simp [hxs a ha]
    simp [h0, List.countP_cons, hc]
  · unfold lastIsFinal
    rw [List.getLast?_concat]
    exact hc

theorem streamTerminatesOnce_cons (c : Dict) (cs : List Dict)
    (hc : isFinalChunk c = false) (h : streamTerminatesOnce cs) :
    streamTerminatesOnce (c :: cs) := by
  rcases h with ⟨h1, h2⟩
  have hne : cs ≠ [] := by
    intro h0
    rw [h0] at h1
    simp [List.countP_nil] at h1
  constructor
  · rw [List.countP_cons]
    simp [hc, h1]
  · unfold lastIsFinal at h2 ⊢
    cases cs with
    | nil => exact absurd rfl hne
    | cons d ds => rw [List.getLast?_cons_cons]; exact h2

/-!
Claim theorems.
-/

/-- C7: get_provider_for_model classifies a bare model identifier by the
prefix and substring heuristics of the source: the input
"claude-3-haiku-20240307" yields the Anthropic provider name, and any
identifier matched by none of the heuristics raises a ValueError naming
the model instead of returning a provider name. -/
theorem claim_c7_model_inference :
    getProviderForModel "claude-3-haiku-20240307" = .ok "anthropic" ∧
    ∀ m : String,
      strStartsWith (lowerStr m) "gpt" = false →
      strStartsWith (lowerStr m) "text-" = false →
      strStartsWith (lowerStr m) "davinci" = false →
      strContains (lowerStr m) "openai" = false →
      strContains (lowerStr m) "claude" = false →
      strContains (lowerStr m) "anthropic" = false →
      strContains (lowerStr m) "gemini" = false →
      strContains (lowerStr m) "palm" = false →
      strContains (lowerStr m) "google" = false →
      strContains (lowerStr m) "command" = false →
      strContains (lowerStr m) "cohere" = false →
      getProviderForModel m
        = .error ("Cannot determine provider for model: " ++ lowerStr m) := by
  constructor
  · rfl
  · intro m h1 h2 h3 h4 h5 h6 h7 h8 h9 h10 h11
    simp [getProviderForModel, h1, h2, h3, h4, h5, h6, h7, h8, h9, h10, h11]

/-- Witness for C7 at the concrete unmatched identifier "foobar". -/
theorem claim_c7_model_inference_witness :
    strStartsWith (lowerStr "foobar") "gpt" = false ∧
    strContains (lowerStr "foobar") "cohere" = false ∧
    getProviderForModel "foobar"
      = .error ("Cannot determine provider for model: " ++ lowerStr "foobar") :=
  ⟨by decide, by decide,
    claim_c7_model_inference.2 "foobar" (by decide) (by decide) (by decide) (by decide)
      (by decide) (by decide) (by decide) (by decide) (by decide) (by decide) (by decide)⟩

/-- C8 counterexample: no variant supplies any default max-output-tokens
value.  With max_tokens absent from the call (and no additional params)
the outgoing request of each of the four variants carries no max-tokens
field at all, so in particular no variant defaults it to 1024. -/
theorem claim_c8_counterexample :
    alistGet (openaiParams "gpt-4" [⟨"user", "hi"⟩] none (7/10) none none none none [])
      "max_tokens" = none ∧
    alistGet (anthropicParams "claude-2.1" [⟨"user", "hi"⟩] none (7/10) none none [])
      "max_tokens" = none ∧
    alistGet (cohereParams "command" [⟨"user", "hi"⟩] none (7/10) none none [])
      "max_tokens" = none ∧
    alistGet (googleGenConfig none (7/10) none none []) "max_output_tokens" = none := by
  refine ⟨rfl, rfl, rfl, rfl⟩

/-- C8 amended: no variant supplies a default for the max-output-tokens
field; every variant writes it into the outgoing request exactly when the
caller passes max_tokens, and omits it otherwise. -/
theorem claim_c8_no_default_max_tokens (model : String) (messages : List Message)
    (temperature : ℚ) (topP : Option ℚ) (stopSequences : Option (List String))
    (presencePenalty frequencyPenalty : Option ℚ) (v : Nat) :
    alistGet (openaiParams model messages none temperature topP stopSequences
      presencePenalty frequencyPenalty []) "max_tokens" = none ∧
    alistGet (anthropicParams model messages none temperature topP stopSequences [])
      "max_tokens" = none ∧
    alistGet (cohereParams model messages none temperature topP stopSequences [])
      "max_tokens" = none ∧
    alistGet (googleGenConfig none temperature topP stopSequences [])
      "max_output_tokens" = none ∧
    alistGet (openaiParams model messages (some v) temperature topP stopSequences
      presencePenalty frequencyPenalty []) "max_tokens" = some (.n v) ∧
    alistGet (anthropicParams model messages (some v) temperature topP stopSequences [])
      "max_tokens" = some (.n v) ∧
    alistGet (cohereParams model messages (some v) temperature topP stopSequences [])
      "max_tokens" = some (.n v) ∧
    alistGet (googleGenConfig (some v) temperature topP stopSequences [])
      "max_output_tokens" = some (.n v) := by
  refine ⟨?_, ?_, ?_, ?_, ?_, ?_, ?_, ?_⟩
  · unfold openaiParams
    simp only [List.isEmpty_nil, if_true, Option.map_none', setIfSome_none]
    rw [alistGet_setIfSome_other _ _ _ _ (by decide),
      alistGet_setIfSome_other _ _ _ _ (by decide),
      alistGet_setIfSome_other _ _ _ _ (by decide),
      alistGet_setIfSome_other _ _ _ _ (by decide)]
    rfl
  · unfold anthropicParams
    simp only [List.isEmpty_nil, if_true, Option.map_none', setIfSome_none]
    rw [alistGet_setIfSome_other _ _ _ _ (by decide),
      alistGet_setIfSome_other _ _ _ _ (by decide),
      alistGet_setIfSome_other _ _ _ _ (by decide)]
    rfl
  · unfold cohereParams
    simp only [List.isEmpty_nil, if_true, Option.map_none', setIfSome_none]
    rw [alistGet_setIfSome_other _ _ _ _ (by decide),
      alistGet_setIfSome_other _ _ _ _ (by decide),
      alistGet_setIfSome_other _ _ _ _ (by decide)]
    rfl
  · unfold googleGenConfig
    simp only [Option.map_none', setIfSome_none]
    rw [alistGet_setIfSome_other _ _ _ _ (by decide),
      alistGet_setIfSome_other _ _ _ _ (by decide)]
    rfl
  · unfold openaiParams
    simp only [List.isEmpty_nil, if_true, Option.map_some', setIfSome_some]
    rw [alistGet_setIfSome_other _ _ _ _ (by decide),
      alistGet_setIfSome_other _ _ _ _ (by decide),
      alistGet_setIfSome_other _ _ _ _ (by decide),
      alistGet_setIfSome_other _ _ _ _ (by decide)]
    exact alistGet_set_self _ _ _
  · unfold anthropicParams
    simp only [List.isEmpty_nil, if_true, Option.map_some', setIfSome_some]
    rw [alistGet_setIfSome_other _ _ _ _ (by decide),
      alistGet_setIfSome_other _ _ _ _ (by decide)]
    exact alistGet_set_self _ _ _
  · unfold cohereParams
    simp only [List.isEmpty_nil, if_true, Option.map_some', setIfSome_some]
    rw [alistGet_setIfSome_other _ _ _ _ (by decide),
      alistGet_setIfSome_other _ _ _ _ (by decide)]
    exact alistGet_set_self _ _ _
  · unfold googleGenConfig
    simp only [Option.map_some', setIfSome_some]
    rw [alistGet_setIfSome_other _ _ _ _ (by decide),
      alistGet_setIfSome_other _ _ _ _ (by decide)]
    exact alistGet_set_self _ _ _

/-- C9 counterexample: the Google variant never reads additional_params,
so a key passed there does not appear in Google's generation config,
contradicting the claim that every variant merges additional_params into
the final vendor request. -/
theorem claim_c9_counterexample :
    alistGet (googleGenConfig none (7/10) none none [("candidate_count", .n 3)])
      "candidate_count" = none := rfl

/-- C9 amended: for the OpenAI, Anthropic and Cohere variants every key of
a non-empty additional_params map reaches the final request params with
exactly its given value, overriding any previously mapped value; the
Google variant ignores additional_params entirely, its generation config
being independent of them. -/
theorem claim_c9_additional_params_override (model : String) (messages : List Message)
    (maxTokens : Option Nat) (temperature : ℚ) (topP : Option ℚ)
    (stopSequences : Option (List String)) (presencePenalty frequencyPenalty : Option ℚ)
    (ap : Dict) (k : String) (v : Val)
    (hnd : (ap.map Prod.fst).Nodup) (hmem : (k, v) ∈ ap) :
    alistGet (openaiParams model messages maxTokens temperature topP stopSequences
      presencePenalty frequencyPenalty ap) k = some v ∧
    alistGet (anthropicParams model messages maxTokens temperature topP stopSequences ap)
      k = some v ∧
    alistGet (cohereParams model messages maxTokens temperature topP stopSequences ap)
      k = some v ∧
    googleGenConfig maxTokens temperature topP stopSequences ap
      = googleGenConfig maxTokens temperature topP stopSequences [] := by
  have hne : ap.isEmpty = false := by
    cases ap with
    | nil => cases hmem
    | cons p rest => rfl
  refine ⟨?_, ?_, ?_, rfl⟩
  · unfold openaiParams
    rw [hne]
    simp only [Bool.false_eq_true, if_false]
    exact alistGet_update_mem _ ap k v hnd hmem
  · unfold anthropicParams
    rw [hne]
    simp only [Bool.false_eq_true, if_false]
    exact alistGet_update_mem _ ap k v hnd hmem
  · unfold cohereParams
    rw [hne]
    simp only [Bool.false_eq_true, if_false]
    exact alistGet_update_mem _ ap k v hnd hmem

/-- Witness for C9 at a concrete call whose additional_params override the
mapped temperature. -/
theorem claim_c9_additional_params_override_witness :
    (([(("temperature" : String), Val.q 0)].map Prod.fst).Nodup ∧
      (("temperature" : String), Val.q 0) ∈ [(("temperature" : String), Val.q 0)]) ∧
    (alistGet (openaiParams "gpt-4" [⟨"user", "hi"⟩] none (7/10) none none none none
      [("temperature", Val.q 0)]) "temperature" = some (Val.q 0) ∧
    alistGet (anthropicParams "gpt-4" [⟨"user", "hi"⟩] none (7/10) none none
      [("temperature", Val.q 0)]) "temperature" = some (Val.q 0) ∧
    alistGet (cohereParams "gpt-4" [⟨"user", "hi"⟩] none (7/10) none none
      [("temperature", Val.q 0)]) "temperature" = some (Val.q 0) ∧
    googleGenConfig none (7/10) none none [("temperature", Val.q 0)]
      = googleGenConfig none (7/10) none none []) :=
  ⟨⟨by decide, by decide⟩,
    claim_c9_additional_params_override "gpt-4" [⟨"user", "hi"⟩] none (7/10) none none
      none none [("temperature", Val.q 0)] "temperature" (Val.q 0) (by decide) (by decide)⟩

/-- C6 counterexample: requesting the unregistered name "unknownvendor"
from a fresh factory raises the unsupported-provider ValueError, but the
factory state is not left untouched: an empty per-name bucket and a
per-name lock created before the failed construction remain behind,
contradicting the claim of no partial state. -/
theorem claim_c6_counterexample :
    (factoryGetProvider ⟨[], []⟩ "unknownvendor" "k" none).2.providers
      = [("unknownvendor", [])] ∧
    (factoryGetProvider ⟨[], []⟩ "unknownvendor" "k" none).2.locks
      = ["unknownvendor"] ∧
    (factoryGetProvider ⟨[], []⟩ "unknownvendor" "k" none).2
      ≠ (⟨[], []⟩ : FactoryState) := by
  refine ⟨rfl, rfl, ?_⟩
  decide

/-- C6 amended: requesting a provider name outside the registry raises the
unsupported-provider ValueError and stores no instance under the requested
(provider, credential, organization) key; however the per-name lock and an
empty per-name cache bucket created on the way remain in the factory
state. -/
theorem claim_c6_unsupported_provider_state (st : FactoryState)
    (name key : String) (org : Option String)
    (hreg : providerRegistryNames.contains (lowerStr name) = false)
    (hkey : alistGet ((alistGet st.providers name).getD [])
      (providerCacheKey name key org) = none) :
    (factoryGetProvider st name key org).1
      = .error ("Provider " ++ name ++ " is not supported. Available providers: " ++
        String.intercalate ", " providerRegistryNames) ∧
    (∃ b, alistGet (factoryGetProvider st name key org).2.providers name = some b ∧
      alistGet b (providerCacheKey name key org) = none) ∧
    (factoryGetProvider st name key org).2.locks.contains name = true := by
  have hmod : moduleGetProvider name key org
      = .error ("Provider " ++ name ++ " is not supported. Available providers: " ++
        String.intercalate ", " providerRegistryNames) := by
    unfold moduleGetProvider
    rw [hreg]
    rfl
  have hlocks : (if st.locks.contains name then st.locks
      else st.locks ++ [name]).contains name = true := by
    by_cases h : st.locks.contains name = true
    · rw [if_pos h]; exact h
    · rw [if_neg h]
      have hmem : name ∈ st.locks ++ [name] :=
        List.mem_append_right _ (List.mem_singleton_self name)
      exact List.elem_eq_true_of_mem hmem
  cases hb : alistGet st.providers name with
  | none =>
      have h1 : factoryGetProvider st name key org
          = (.error ("Provider " ++ name ++ " is not supported. Available providers: " ++
              String.intercalate ", " providerRegistryNames),
             ⟨alistSet st.providers name [],
              if st.locks.contains name then st.locks else st.locks ++ [name]⟩) := by
        unfold factoryGetProvider
        simp only [hb, alistGet_set_self, Option.getD_some, hmod, alistGet_nil]
      rw [h1]
      exact ⟨rfl, ⟨[], alistGet_set_self st.providers name [], rfl⟩, hlocks⟩
  | some b =>
      have hkey' : alistGet b (providerCacheKey name key org) = none := by
        rw [hb] at hkey
        simpa using hkey
      have h1 : factoryGetProvider st name key org
          = (.error ("Provider " ++ name ++ " is not supported. Available providers: " ++
              String.intercalate ", " providerRegistryNames),
             ⟨st.providers,
              if st.locks.contains name then st.locks else st.locks ++ [name]⟩) := by
        unfold factoryGetProvider
        simp only [hb, Option.getD_some, hkey', hmod]
      rw [h1]
      exact ⟨rfl, ⟨b, hb, hkey'⟩, hlocks⟩

/-- Witness for C6 at the concrete unregistered name "unknownvendor" on a
fresh factory. -/
theorem claim_c6_unsupported_provider_state_witness :
    (providerRegistryNames.contains (lowerStr "unknownvendor") = false ∧
      alistGet ((alistGet (FactoryState.mk [] []).providers "unknownvendor").getD [])
        (providerCacheKey "unknownvendor" "k" none) = none) ∧
    ((factoryGetProvider ⟨[], []⟩ "unknownvendor" "k" none).1
      = .error ("Provider " ++ "unknownvendor" ++ " is not supported. Available providers: " ++
        String.intercalate ", " providerRegistryNames) ∧
    (∃ b, alistGet (factoryGetProvider ⟨[], []⟩ "unknownvendor" "k" none).2.providers
        "unknownvendor" = some b ∧
      alistGet b (providerCacheKey "unknownvendor" "k" none) = none) ∧
    (factoryGetProvider ⟨[], []⟩ "unknownvendor" "k" none).2.locks.contains
      "unknownvendor" = true) :=
  ⟨⟨by decide, by decide⟩,
    claim_c6_unsupported_provider_state ⟨[], []⟩ "unknownvendor" "k" none
      (by decide) (by decide)⟩

/-- C5: the claimed backoff behavior is the intent of
run_with_rate_limit_handling (its docstring promises retries with
exponential backoff), but the code crashes first: under any
rate-limit-classified failure with retries remaining, the jitter line
`asyncio.Random()` raises an AttributeError before `asyncio.sleep`, so
the loop sleeps no delay, never retries, and propagates the
AttributeError - a new failure distinct from the original - in place of
the original failure; the original failure is re-raised unchanged only
when it is not rate-limit-classified or when max_retries is 0. -/
theorem claim_c5_jitter_crash (α : Type) (e e' : PyExc)
    (outcomes outcomes' : ℕ → Except PyExc α) (maxRetries : ℕ) (base maxd : ℚ)
    (hout : outcomes 0 = .error e)
    (hrl : isRateLimit e.ename e.msg = true)
    (hretries : maxRetries ≠ 0)
    (hout' : outcomes' 0 = .error e')
    (hrl' : isRateLimit e'.ename e'.msg = false) :
    runWithRateLimit outcomes maxRetries base maxd
      = (.error asyncioRandomError, []) ∧
    asyncioRandomError ≠ e ∧
    runWithRateLimit outcomes' maxRetries base maxd = (.error e', []) ∧
    runWithRateLimit outcomes 0 base maxd = (.error e, []) := by
  refine ⟨?_, ?_, ?_, ?_⟩
  · rw [runWithRateLimit]
    simp only [runWithRateLimitGo]
    rw [hout]
    cases maxRetries with
    | zero => exact absurd rfl hretries
    | succ b => simp [hrl]
  · intro h
    rw [← h] at hrl
    exact absurd hrl (by decide)
  · rw [runWithRateLimit]
    simp only [runWithRateLimitGo]
    rw [hout']
    simp [hrl']
  · rw [runWithRateLimit]
    simp only [runWithRateLimitGo]
    rw [hout]
    simp [hrl]

/-- Witness for C5 at a persistent rate-limited failure under the default
policy (3 retries, base 1.0, cap 60.0) and at a non-rate-limit failure. -/
theorem claim_c5_jitter_crash_witness :
    (((fun _ : ℕ =>
        (.error ⟨"RateLimitError", "rate limit exceeded"⟩ : Except PyExc Nat)) 0
        = .error ⟨"RateLimitError", "rate limit exceeded"⟩) ∧
      isRateLimit "RateLimitError" "rate limit exceeded" = true ∧
      (3 : ℕ) ≠ 0 ∧
      ((fun _ : ℕ => (.error ⟨"ValueError", "boom"⟩ : Except PyExc Nat)) 0
        = .error ⟨"ValueError", "boom"⟩) ∧
      isRateLimit "ValueError" "boom" = false) ∧
    (runWithRateLimit (fun _ : ℕ =>
        (.error ⟨"RateLimitError", "rate limit exceeded"⟩ : Except PyExc Nat)) 3 1 60
      = (.error asyncioRandomError, []) ∧
    asyncioRandomError ≠ ⟨"RateLimitError", "rate limit exceeded"⟩ ∧
    runWithRateLimit (fun _ : ℕ => (.error ⟨"ValueError", "boom"⟩ : Except PyExc Nat))
      3 1 60 = (.error ⟨"ValueError", "boom"⟩, []) ∧
    runWithRateLimit (fun _ : ℕ =>
        (.error ⟨"RateLimitError", "rate limit exceeded"⟩ : Except PyExc Nat)) 0 1 60
      = (.error ⟨"RateLimitError", "rate limit exceeded"⟩, [])) :=
  ⟨⟨rfl, by decide, by decide, rfl, by decide⟩,
    claim_c5_jitter_crash Nat ⟨"RateLimitError", "rate limit exceeded"⟩
      ⟨"ValueError", "boom"⟩
      (fun _ => .error ⟨"RateLimitError", "rate limit exceeded"⟩)
      (fun _ => .error ⟨"ValueError", "boom"⟩) 3 1 60
      rfl (by decide) (by decide) rfl (by decide)⟩

/-- Whether an Anthropic stream event is the message_stop event. -/
def isStopEvent : AnthEvent → Bool
  | .messageStop _ _ => true
  | _ => false

theorem streamTerminatesOnce_single (c : Dict) (hc : isFinalChunk c = true) :
    streamTerminatesOnce [c] := by
  constructor
  · simp [List.countP_cons, List.countP_nil, hc]
  · unfold lastIsFinal
    simp [hc]

theorem anthropicStream_terminates (model : String) (pre : List AnthEvent)
    (hpre : ∀ ev ∈ pre, isStopEvent ev = false) (sid : String) (sreason : Option String) :
    streamTerminatesOnce
      (anthropicStreamChunks model (pre ++ [.messageStop sid sreason])) := by
  unfold anthropicStreamChunks
  rw [List.filterMap_append]
  have hsingle : List.filterMap (anthChunkOf model) [.messageStop sid sreason]
      = [[("id", .s sid), ("model", .s model), ("created", .null),
          ("provider", .s "anthropic"), ("content", .s ""),
          ("role", .s "assistant"), ("finish_reason", optStr sreason),
          ("is_chunk", .b true), ("is_final", .b true)]] := rfl
  rw [hsingle]
  apply streamTerminatesOnce_append
  · rfl
  · intro x hx
    rcases List.mem_filterMap.mp hx with ⟨ev, hev, hfx⟩
    cases ev with
    | contentBlockDelta t =>
        have hx' : x = [("id", .null), ("model", .s model), ("created", .null),
            ("provider", .s "anthropic"), ("content", .s t),
            ("role", .s "assistant"), ("finish_reason", .null),
            ("is_chunk", .b true)] := by
          have := hfx
          simp only [anthChunkOf, Option.some.injEq] at this
          exact this.symm
        rw [hx']
        rfl
    | messageStop a b =>
        have := hpre _ hev
        simp [isStopEvent] at this
    | otherEvent =>
        simp [anthChunkOf] at hfx

theorem googleStream_terminates (model : String) (items : List GItem) :
    streamTerminatesOnce (googleStreamChunks model items) := by
  unfold googleStreamChunks
  apply streamTerminatesOnce_append
  · exact isFinal_googleFinalChunk model _
  · intro x hx
    rcases List.mem_filterMap.mp hx with ⟨i, hi, hfx⟩
    rcases Option.map_eq_some'.mp hfx with ⟨t, ht, hxt⟩
    rw [← hxt]
    exact isFinal_googleTextChunk model t

theorem cohereStreamGo_terminates (model : String) (ce : CohEvent)
    (hce : ce.is_finished = true) :
    ∀ (pre : List CohEvent), (∀ ev ∈ pre, ev.is_finished = false) →
      ∀ gid acc, streamTerminatesOnce (cohereStreamGo model gid acc (pre ++ [ce])) := by
  intro pre
  induction pre with
  | nil =>
      intro _ gid acc
      rw [List.nil_append]
      unfold cohereStreamGo
      cases htext : ce.text with
      | some t =>
          simp only [hce, if_true]
          unfold cohereStreamGo
          apply streamTerminatesOnce_cons
          · exact isFinal_cohereTextChunk model _ t
          · simpa using streamTerminatesOnce_single _ (isFinal_cohereFinalChunk model _ _ _)
      | none =>
          simp only [hce, if_true]
          unfold cohereStreamGo
          simpa using streamTerminatesOnce_single _ (isFinal_cohereFinalChunk model _ _ _)
  | cons e pre' ih =>
      intro hpre gid acc
      have he : e.is_finished = false := hpre e (List.mem_cons_self e pre')
      have hpre' : ∀ ev ∈ pre', ev.is_finished = false :=
        fun ev hev => hpre ev (List.mem_cons_of_mem e hev)
      rw [List.cons_append]
      unfold cohereStreamGo
      cases htext : e.text with
      | some t =>
          simp only [he, Bool.false_eq_true, if_false, List.nil_append]
          apply streamTerminatesOnce_cons
          · exact isFinal_cohereTextChunk model _ t
          · exact ih hpre' _ _
      | none =>
          simp only [he, Bool.false_eq_true, if_false, List.nil_append]
          exact ih hpre' _ _

theorem openaiStream_no_final (events : List OAIChunk) :
    (openaiStreamChunks events).countP (fun c => isFinalChunk c) = 0 := by
  rw [List.countP_eq_zero]
  intro c hc
  rcases List.mem_filterMap.mp hc with ⟨ev, hev, hfx⟩
  cases hch : ev.choices with
  | nil =>
      rw [hch] at hfx
      simp at hfx
  | cons ch rest =>
      rw [hch] at hfx
      simp only [Option.some.injEq] at hfx
      rw [← hfx]
      simp
      rfl

/-- C2 counterexample: a successful OpenAI stream (two vendor chunks, the
second carrying the terminal finish_reason) yields chunks none of which
carries is_final at all, so the OpenAI variant never emits a chunk with
is_final true, contradicting the claim for every variant. -/
theorem claim_c2_counterexample :
    ¬ streamTerminatesOnce (openaiStreamChunks
      [⟨"c1", "gpt-4", 1, [⟨⟨some "hello", some "assistant"⟩, none⟩]⟩,
       ⟨"c1", "gpt-4", 1, [⟨⟨none, none⟩, some "stop"⟩]⟩]) := by
  decide

/-- C2 amended: the Anthropic, Google and Cohere variants emit exactly one
terminal chunk with is_final true as the last chunk of every successful
stream (for Anthropic when the vendor delivers its single message_stop
event last, for Cohere when the vendor delivers its single is_finished
event last, for Google unconditionally); the OpenAI variant never sets
is_final on any chunk, signalling termination only through finish_reason. -/
theorem claim_c2_stream_termination (model : String)
    (aPre : List AnthEvent) (sid : String) (sreason : Option String)
    (haPre : ∀ ev ∈ aPre, isStopEvent ev = false)
    (cPre : List CohEvent) (ce : CohEvent)
    (hcPre : ∀ ev ∈ cPre, ev.is_finished = false) (hce : ce.is_finished = true)
    (gItems : List GItem) (oEvents : List OAIChunk) :
    streamTerminatesOnce
      (anthropicStreamChunks model (aPre ++ [.messageStop sid sreason])) ∧
    streamTerminatesOnce (cohereStreamChunks model (cPre ++ [ce])) ∧
    streamTerminatesOnce (googleStreamChunks model gItems) ∧
    (openaiStreamChunks oEvents).countP (fun c => isFinalChunk c) = 0 :=
  ⟨anthropicStream_terminates model aPre haPre sid sreason,
   cohereStreamGo_terminates model ce hce cPre hcPre none "",
   googleStream_terminates model gItems,
   openaiStream_no_final oEvents⟩

/-- Witness for C2 at concrete successful vendor streams for all four
variants. -/
theorem claim_c2_stream_termination_witness :
    ((∀ ev ∈ [AnthEvent.contentBlockDelta "hi"], isStopEvent ev = false) ∧
     (∀ ev ∈ [CohEvent.mk (some "g1") (some "hi") false none], ev.is_finished = false) ∧
     (CohEvent.mk none none true none).is_finished = true) ∧
    (streamTerminatesOnce (anthropicStreamChunks "m"
        ([AnthEvent.contentBlockDelta "hi"] ++ [.messageStop "i1" (some "end_turn")])) ∧
    streamTerminatesOnce (cohereStreamChunks "m"
        ([CohEvent.mk (some "g1") (some "hi") false none]
          ++ [CohEvent.mk none none true none])) ∧
    streamTerminatesOnce (googleStreamChunks "m" [GItem.withText (some "hi")]) ∧
    (openaiStreamChunks
        [⟨"c1", "gpt-4", 1, [⟨⟨some "hello", some "assistant"⟩, none⟩]⟩]).countP
      (fun c => isFinalChunk c) = 0) :=
  ⟨⟨by decide, by decide, rfl⟩,
    claim_c2_stream_termination "m" [AnthEvent.contentBlockDelta "hi"] "i1"
      (some "end_turn") (by decide) [CohEvent.mk (some "g1") (some "hi") false none]
      (CohEvent.mk none none true none) (by decide) rfl
      [GItem.withText (some "hi")]
      [⟨"c1", "gpt-4", 1, [⟨⟨some "hello", some "assistant"⟩, none⟩]⟩]⟩

/-- C10: when the message sequence holds two or more system messages, the
Anthropic, Google and Cohere translations put the content of the last
system message in the system/preamble slot, the translated turn list is
exactly the translation of the sequence with all system messages removed,
and every earlier system content is therefore discarded. -/
theorem claim_c10_last_system_wins (l₁ l₂ : List Message) (sysM : Message)
    (hs : sysM.role = "system")
    (hl₂ : ∀ m ∈ l₂, m.role ≠ "system")
    (hearlier : ∃ m ∈ l₁, m.role = "system") :
    ((anthropicConvert (l₁ ++ sysM :: l₂)).2 = some sysM.content ∧
      (anthropicConvert (l₁ ++ sysM :: l₂)).1
        = (anthropicConvert
            ((l₁ ++ sysM :: l₂).filter (fun m => !(m.role == "system")))).1) ∧
    ((googleConvert (l₁ ++ sysM :: l₂)).2 = some sysM.content ∧
      (googleConvert (l₁ ++ sysM :: l₂)).1
        = (googleConvert
            ((l₁ ++ sysM :: l₂).filter (fun m => !(m.role == "system")))).1) ∧
    ((cohereConvert (l₁ ++ sysM :: l₂)).2 = some sysM.content ∧
      (cohereConvert (l₁ ++ sysM :: l₂)).1
        = (cohereConvert
            ((l₁ ++ sysM :: l₂).filter (fun m => !(m.role == "system")))).1) :=
  ⟨⟨anthropicConvert_snd_last l₁ l₂ sysM hs hl₂, anthropicConvert_fst_filter _⟩,
   ⟨googleConvert_snd_last l₁ l₂ sysM hs hl₂, googleConvert_fst_filter _⟩,
   ⟨cohereConvert_snd_last l₁ l₂ sysM hs hl₂, cohereConvert_fst_filter _⟩⟩

/-- Witness for C10 at a concrete sequence with two system messages. -/
theorem claim_c10_last_system_wins_witness :
    ((⟨"system", "b"⟩ : Message).role = "system" ∧
     (∀ m ∈ [(⟨"assistant", "x"⟩ : Message)], m.role ≠ "system") ∧
     (∃ m ∈ [(⟨"system", "a"⟩ : Message), ⟨"user", "u"⟩], m.role = "system")) ∧
    (((anthropicConvert [⟨"system", "a"⟩, ⟨"user", "u"⟩, ⟨"system", "b"⟩,
        ⟨"assistant", "x"⟩]).2 = some "b" ∧
      (anthropicConvert [⟨"system", "a"⟩, ⟨"user", "u"⟩, ⟨"system", "b"⟩,
        ⟨"assistant", "x"⟩]).1
        = (anthropicConvert ([⟨"system", "a"⟩, ⟨"user", "u"⟩, ⟨"system", "b"⟩,
            (⟨"assistant", "x"⟩ : Message)].filter (fun m => !(m.role == "system")))).1) ∧
    ((googleConvert [⟨"system", "a"⟩, ⟨"user", "u"⟩, ⟨"system", "b"⟩,
        ⟨"assistant", "x"⟩]).2 = some "b" ∧
      (googleConvert [⟨"system", "a"⟩, ⟨"user", "u"⟩, ⟨"system", "b"⟩,
        ⟨"assistant", "x"⟩]).1
        = (googleConvert ([⟨"system", "a"⟩, ⟨"user", "u"⟩, ⟨"system", "b"⟩,
            (⟨"assistant", "x"⟩ : Message)].filter (fun m => !(m.role == "system")))).1) ∧
    ((cohereConvert [⟨"system", "a"⟩, ⟨"user", "u"⟩, ⟨"system", "b"⟩,
        ⟨"assistant", "x"⟩]).2 = some "b" ∧
      (cohereConvert [⟨"system", "a"⟩, ⟨"user", "u"⟩, ⟨"system", "b"⟩,
        ⟨"assistant", "x"⟩]).1
        = (cohereConvert ([⟨"system", "a"⟩, ⟨"user", "u"⟩, ⟨"system", "b"⟩,
            (⟨"assistant", "x"⟩ : Message)].filter (fun m => !(m.role == "system")))).1)) :=
  ⟨⟨rfl, by decide, by decide⟩,
    claim_c10_last_system_wins [⟨"system", "a"⟩, ⟨"user", "u"⟩] [⟨"assistant", "x"⟩]
      ⟨"system", "b"⟩ rfl (by decide) (by decide)⟩

/-- C3 counterexample: with the single system message not followed first
by a user turn, the Google variant silently drops the system content: the
request contents carry no `[SYSTEM: ...]` marker and the system text
appears nowhere, contradicting never-dropped. -/
theorem claim_c3_counterexample :
    googleRequestContents [⟨"system", "SYS0"⟩, ⟨"assistant", "a"⟩, ⟨"user", "u"⟩]
      = [⟨"model", "a"⟩, ⟨"user", "u"⟩] ∧
    (∀ t ∈ googleRequestContents [⟨"system", "SYS0"⟩, ⟨"assistant", "a"⟩, ⟨"user", "u"⟩],
      strContains t.text "SYS0" = false) := by
  decide

/-- C3 amended: with at most one system message, the Anthropic and Cohere
translations place its content in the system/preamble slot and keep only
non-system turns, the OpenAI variant forwards the message list unchanged
(its wire format has a native system role), and the Google variant
prepends the content with the `[SYSTEM: ...]` marker to the first turn
provided that turn is a user turn and the content is non-empty — in any
other case Google drops the system content. -/
theorem claim_c3_system_placement (l₁ l₂ : List Message) (sysM : Message)
    (g : GeminiTurn) (rest : List GeminiTurn) (model : String) (temperature : ℚ)
    (hs : sysM.role = "system")
    (hl₁ : ∀ m ∈ l₁, m.role ≠ "system")
    (hl₂ : ∀ m ∈ l₂, m.role ≠ "system")
    (hne : sysM.content ≠ "")
    (hg : (googleConvert (l₁ ++ sysM :: l₂)).1 = g :: rest)
    (hgu : g.role = "user") :
    (anthropicConvert (l₁ ++ sysM :: l₂)).2 = some sysM.content ∧
    (cohereConvert (l₁ ++ sysM :: l₂)).2 = some sysM.content ∧
    alistGet (anthropicParams model (l₁ ++ sysM :: l₂) none temperature none none [])
      "system" = some (.s sysM.content) ∧
    alistGet (openaiParams model (l₁ ++ sysM :: l₂) none temperature none none none
      none []) "messages" = some (.msgList (l₁ ++ sysM :: l₂)) ∧
    googleRequestContents (l₁ ++ sysM :: l₂)
      = ⟨g.role, "[SYSTEM: " ++ sysM.content ++ "]\n\n" ++ g.text⟩ :: rest ∧
    (anthropicConvert (l₁ ++ sysM :: l₂)).1
      = (anthropicConvert
          ((l₁ ++ sysM :: l₂).filter (fun m => !(m.role == "system")))).1 := by
  have ha := anthropicConvert_snd_last l₁ l₂ sysM hs hl₂
  have hc := cohereConvert_snd_last l₁ l₂ sysM hs hl₂
  have hgs := googleConvert_snd_last l₁ l₂ sysM hs hl₂
  have hbeq : (sysM.content == "") = false := by
    simp only [beq_eq_false_iff_ne, ne_eq]
    exact hne
  refine ⟨ha, hc, ?_, ?_, ?_, anthropicConvert_fst_filter _⟩
  · unfold anthropicParams
    simp only [Option.map_none', setIfSome_none, List.isEmpty_nil, if_true]
    rw [ha]
    simp only [truthyStr, hbeq, Bool.false_eq_true, if_false, setIfSome_some]
    rw [alistGet_set_self]
  · unfold openaiParams
    simp only [Option.map_none', setIfSome_none, List.isEmpty_nil, if_true]
    rfl
  · unfold googleRequestContents
    rw [hgs, hg]
    unfold googleApplySystem
    simp only [hbeq, Bool.false_eq_true, if_false]
    have hgub : (g.role == "user") = true := by
      simp only [beq_iff_eq]
      exact hgu
    simp only [hgub, if_true]

/-- Witness for C3 at the concrete sequence
system("be terse") then user("hi"). -/
theorem claim_c3_system_placement_witness :
    ((⟨"system", "be terse"⟩ : Message).role = "system" ∧
     (⟨"system", "be terse"⟩ : Message).content ≠ "" ∧
     (googleConvert [⟨"system", "be terse"⟩, ⟨"user", "hi"⟩]).1
       = [⟨"user", "hi"⟩] ∧
     (⟨"user", "hi"⟩ : GeminiTurn).role = "user") ∧
    ((anthropicConvert [⟨"system", "be terse"⟩, ⟨"user", "hi"⟩]).2
      = some "be terse" ∧
    (cohereConvert [⟨"system", "be terse"⟩, ⟨"user", "hi"⟩]).2
      = some "be terse" ∧
    alistGet (anthropicParams "claude-2.1" [⟨"system", "be terse"⟩, ⟨"user", "hi"⟩]
      none (7/10) none none []) "system" = some (.s "be terse") ∧
    alistGet (openaiParams "claude-2.1" [⟨"system", "be terse"⟩, ⟨"user", "hi"⟩]
      none (7/10) none none none none []) "messages"
      = some (.msgList [⟨"system", "be terse"⟩, ⟨"user", "hi"⟩]) ∧
    googleRequestContents [⟨"system", "be terse"⟩, ⟨"user", "hi"⟩]
      = [⟨"user", "[SYSTEM: be terse]\n\nhi"⟩] ∧
    (anthropicConvert [⟨"system", "be terse"⟩, ⟨"user", "hi"⟩]).1
      = (anthropicConvert ([⟨"system", "be terse"⟩,
          (⟨"user", "hi"⟩ : Message)].filter (fun m => !(m.role == "system")))).1) :=
  ⟨⟨rfl, by decide, by decide, rfl⟩,
    claim_c3_system_placement [] [⟨"user", "hi"⟩] ⟨"system", "be terse"⟩
      ⟨"user", "hi"⟩ [] "claude-2.1" (7/10) rfl (by decide) (by decide) (by decide)
      (by decide) rfl⟩

theorem openaiHandleError_fields (e : PyExc) :
    alistGet (openaiHandleError e) "error" = some (.b true) ∧
    alistGet (openaiHandleError e) "message" = some (.s e.msg) := by
  unfold openaiHandleError
  split_ifs <;> exact ⟨rfl, rfl⟩

theorem anthropicHandleError_fields (e : PyExc) :
    alistGet (anthropicHandleError e) "error" = some (.b true) ∧
    alistGet (anthropicHandleError e) "message" = some (.s e.msg) := by
  unfold anthropicHandleError
  split_ifs <;> exact ⟨rfl, rfl⟩

theorem googleHandleError_fields (e : PyExc) :
    alistGet (googleHandleError e) "error" = some (.b true) ∧
    alistGet (googleHandleError e) "message" = some (.s e.msg) := by
  unfold googleHandleError
  split_ifs <;> exact ⟨rfl, rfl⟩

theorem cohereHandleError_fields (e : PyExc) :
    alistGet (cohereHandleError e) "error" = some (.b true) ∧
    alistGet (cohereHandleError e) "message" = some (.s e.msg) := by
  unfold cohereHandleError
  split_ifs <;> exact ⟨rfl, rfl⟩

/-- C1 counterexample: a declared-category vendor failure whose message
stringifies to the empty string is converted to an ErrorResult whose
message is the empty string, so the returned message is not always
non-empty as the claim requires (error=true and no raised failure do
hold). -/
theorem claim_c1_counterexample :
    alistGet (openaiGenerateCompletion (.error ⟨"APIError", ""⟩)) "error"
      = some (.b true) ∧
    alistGet (openaiGenerateCompletion (.error ⟨"APIError", ""⟩)) "message"
      = some (.s "") ∧
    ¬ (∃ m : String, m ≠ "" ∧
      alistGet (openaiGenerateCompletion (.error ⟨"APIError", ""⟩)) "message"
        = some (.s m)) := by
  refine ⟨rfl, rfl, ?_⟩
  rintro ⟨m, hne, hm⟩
  have h0 : alistGet (openaiGenerateCompletion (.error ⟨"APIError", ""⟩)) "message"
      = some (.s "") := rfl
  rw [h0] at hm
  injection hm with hm1
  injection hm1 with hm2
  exact hne hm2.symm

/-- C1 amended: every vendor failure is caught at the variant boundary and
converted to an ErrorResult — generate_completion returns the variant's
handle_provider_error dict and generate_completion_stream yields exactly
that one dict — with error=true and message equal to the failure's own
message string (hence non-empty exactly when the failure's message is
non-empty); nothing propagates as a raised failure. -/
theorem claim_c1_error_result (e : PyExc) (model : String) :
    openaiGenerateCompletion (.error e) = openaiHandleError e ∧
    anthropicGenerateCompletion (.error e) = anthropicHandleError e ∧
    googleGenerateCompletion model (.error e) = googleHandleError e ∧
    cohereGenerateCompletion model (.error e) = cohereHandleError e ∧
    openaiStreamRun (.error e) = [openaiHandleError e] ∧
    anthropicStreamRun model (.error e) = [anthropicHandleError e] ∧
    googleStreamRun model (.error e) = [googleHandleError e] ∧
    cohereStreamRun model (.error e) = [cohereHandleError e] ∧
    (alistGet (openaiHandleError e) "error" = some (.b true) ∧
      alistGet (openaiHandleError e) "message" = some (.s e.msg)) ∧
    (alistGet (anthropicHandleError e) "error" = some (.b true) ∧
      alistGet (anthropicHandleError e) "message" = some (.s e.msg)) ∧
    (alistGet (googleHandleError e) "error" = some (.b true) ∧
      alistGet (googleHandleError e) "message" = some (.s e.msg)) ∧
    (alistGet (cohereHandleError e) "error" = some (.b true) ∧
      alistGet (cohereHandleError e) "message" = some (.s e.msg)) :=
  ⟨rfl, rfl, rfl, rfl, rfl, rfl, rfl, rfl,
    openaiHandleError_fields e, anthropicHandleError_fields e,
    googleHandleError_fields e, cohereHandleError_fields e⟩

/-- C4 counterexample: when the vendor returns an absent (null) message
body, the OpenAI variant passes it through: the content field of the
returned CompletionResult is null rather than a string, contradicting the
claim that content is never null. -/
theorem claim_c4_counterexample :
    alistGet (openaiGenerateCompletion (.ok ⟨"c1", "gpt-4", 5,
        [⟨⟨none, "assistant"⟩, some "stop"⟩], ⟨1, 0, 1⟩⟩)) "content"
      = some Val.null ∧
    ¬ (∃ s : String, alistGet (openaiGenerateCompletion (.ok ⟨"c1", "gpt-4", 5,
        [⟨⟨none, "assistant"⟩, some "stop"⟩], ⟨1, 0, 1⟩⟩)) "content"
      = some (.s s)) := by
  refine ⟨rfl, ?_⟩
  rintro ⟨s, hs⟩
  have h0 : alistGet (openaiGenerateCompletion (.ok ⟨"c1", "gpt-4", 5,
      [⟨⟨none, "assistant"⟩, some "stop"⟩], ⟨1, 0, 1⟩⟩)) "content"
      = some Val.null := rfl
  rw [h0] at hs
  simp at hs

/-- C4 amended: on every successful completion the Anthropic, Google and
Cohere variants return a string content (Anthropic errors out instead on
an empty block list), and the OpenAI variant returns a string content
whenever the vendor message body is present — a null body is passed
through as null. -/
theorem claim_c4_content_is_string (r : OAIResponse) (c : OAIChoice)
    (restC : List OAIChoice) (s : String) (ar : AnthResponse) (blk : AnthBlock)
    (restB : List AnthBlock) (model : String) (gr : GResponse) (cr : CohResponse)
    (hr : r.choices = c :: restC) (hc : c.message.content = some s)
    (har : ar.content = blk :: restB) :
    alistGet (openaiGenerateCompletion (.ok r)) "content" = some (.s s) ∧
    alistGet (anthropicGenerateCompletion (.ok ar)) "content" = some (.s blk.text) ∧
    alistGet (googleGenerateCompletion model (.ok gr)) "content" = some (.s gr.text) ∧
    alistGet (cohereGenerateCompletion model (.ok cr)) "content" = some (.s cr.text) := by
  refine ⟨?_, ?_, rfl, rfl⟩
  · cases r with
    | mk rid rmodel rcreated rchoices rusage =>
        cases hr
        have h : alistGet (openaiGenerateCompletion
            (.ok ⟨rid, rmodel, rcreated, c :: restC, rusage⟩)) "content"
            = some (optStr c.message.content) := rfl
        rw [hc] at h
        exact h
  · cases ar with
    | mk aid amodel acontent astop ausage =>
        cases har
        rfl

/-- Witness for C4 at concrete vendor responses with non-empty bodies. -/
theorem claim_c4_content_is_string_witness :
    ((OAIResponse.mk "c1" "gpt-4" 5 [⟨⟨some "hey", "assistant"⟩, some "stop"⟩]
        ⟨1, 1, 2⟩).choices = [⟨⟨some "hey", "assistant"⟩, some "stop"⟩] ∧
      (OAIChoice.mk ⟨some "hey", "assistant"⟩ (some "stop")).message.content
        = some "hey" ∧
      (AnthResponse.mk "a1" "claude-2.1" [⟨"yo"⟩] (some "end_turn") ⟨2, 3⟩).content
        = [⟨"yo"⟩]) ∧
    (alistGet (openaiGenerateCompletion (.ok ⟨"c1", "gpt-4", 5,
        [⟨⟨some "hey", "assistant"⟩, some "stop"⟩], ⟨1, 1, 2⟩⟩)) "content"
      = some (.s "hey") ∧
    alistGet (anthropicGenerateCompletion (.ok ⟨"a1", "claude-2.1", [⟨"yo"⟩],
        some "end_turn", ⟨2, 3⟩⟩)) "content"
      = some (.s (AnthBlock.mk "yo").text) ∧
    alistGet (googleGenerateCompletion "gemini-pro" (.ok ⟨"sup", none⟩)) "content"
      = some (.s (GResponse.mk "sup" none).text) ∧
    alistGet (cohereGenerateCompletion "command" (.ok ⟨some "g1", "hiya", none⟩))
      "content"
      = some (.s (CohResponse.mk (some "g1") "hiya" none).text)) :=
  ⟨⟨rfl, rfl, rfl⟩,
    claim_c4_content_is_string ⟨"c1", "gpt-4", 5,
      [⟨⟨some "hey", "assistant"⟩, some "stop"⟩], ⟨1, 1, 2⟩⟩
      ⟨⟨some "hey", "assistant"⟩, some "stop"⟩ [] "hey"
      ⟨"a1", "claude-2.1", [⟨"yo"⟩], some "end_turn", ⟨2, 3⟩⟩ ⟨"yo"⟩ []
      "gemini-pro" ⟨"sup", none⟩ ⟨some "g1", "hiya", none⟩ rfl rfl rfl⟩

end MultiModelAI
